import Mathlib

/-!
Verification of the audio adapter layer of `bevy_mod_gba` (`src/audio.rs`).

The adapter bridges the Bevy plugin lifecycle to the GBA audio hardware:
`AgbSoundPlugin::build` registers a post-update system that services the
mixer once per tick, and `AgbSoundPlugin::finish` takes ownership of the
raw hardware controllers deposited in the resource registry, activates
them, and republishes them as wrapped resources.

The engine's resource registry is modelled as a record of `Option`-valued
singleton slots (Bevy stores at most one resource per type key), and the
two plugin phases as functions on that record, translated directly from
`src/audio.rs`.  The hardware handles supplied by the external `agb`
crate are not part of this repository; they are modelled from the
contract the specification states for them (a one-time activation call,
and a per-frame mixer servicing call that is safe only after activation).
-/

namespace agb

/-- Modelled from the spec: the sample-rate selection enumeration
`agb::sound::mixer::Frequency` (the hardware abstraction layer's code is
not part of this repository). -/
inductive Frequency where
  | Hz10512 : Frequency
  | Hz18157 : Frequency
  | Hz32768 : Frequency
deriving DecidableEq, Repr

/-- Modelled from the spec: the raw legacy-chip controller
`agb::sound::dmg::Sound`, a pre-activation handle produced by the
hardware layer at boot.  `id` distinguishes concrete controller
instances; `enabled` records whether the one-time activation call has
happened. -/
structure Sound where
  id : Nat
  enabled : Bool
deriving DecidableEq, Repr

/-- Modelled from the spec: the activation entry point
`agb::sound::dmg::Sound::enable`, the one-time transition of the raw
controller from "configured" to "running". -/
def Sound.enable (s : Sound) : Sound :=
  { s with enabled := true }

/-- Modelled from the spec: the pulse-channel-1 handle
`agb::sound::dmg::Channel1`, a reference into the chip it was derived
from. -/
structure Channel1 where
  sound : Sound
deriving DecidableEq, Repr

/-- Modelled from the spec: the pulse-channel-2 handle
`agb::sound::dmg::Channel2`. -/
structure Channel2 where
  sound : Sound
deriving DecidableEq, Repr

/-- Modelled from the spec: the noise-generator handle
`agb::sound::dmg::Noise`. -/
structure NoiseGen where
  sound : Sound
deriving DecidableEq, Repr

/-- Modelled from the spec: `agb::sound::dmg::Sound::channel1`, deriving
the channel-1 handle from the chip. -/
def Sound.channel1 (s : Sound) : Channel1 :=
  ⟨s⟩

/-- Modelled from the spec: `agb::sound::dmg::Sound::channel2`. -/
def Sound.channel2 (s : Sound) : Channel2 :=
  ⟨s⟩

/-- Modelled from the spec: `agb::sound::dmg::Sound::noise`. -/
def Sound.noise (s : Sound) : NoiseGen :=
  ⟨s⟩

/-- Modelled from the spec: the raw mixer controller
`agb::sound::mixer::MixerController`, a pre-activation handle produced by
the hardware layer at boot. -/
structure MixerController where
  id : Nat
deriving DecidableEq, Repr

/-- Modelled from the spec: the mixer object
`agb::sound::mixer::Mixer`, which borrows from its controller, carries
the configured sample rate, an activation flag, and its internal
playback-buffer state, summarised here by the number of times the
per-frame servicing operation has run. -/
structure Mixer where
  controller : MixerController
  frequency : Frequency
  enabled : Bool
  framesServiced : Nat
deriving DecidableEq, Repr

/-- Modelled from the spec:
`agb::sound::mixer::MixerController::mixer`, constructing a
not-yet-activated mixer at the requested frequency. -/
def MixerController.mixer (mc : MixerController) (frequency : Frequency) : Mixer :=
  { controller := mc, frequency := frequency, enabled := false, framesServiced := 0 }

/-- Modelled from the spec: the activation entry point
`agb::sound::mixer::Mixer::enable`. -/
def Mixer.enable (m : Mixer) : Mixer :=
  { m with enabled := true }

/-- Modelled from the spec: the per-frame servicing operation
`agb::sound::mixer::Mixer::frame`, which advances the playback buffer
once and is safe to invoke only after activation; invoking it on a
not-yet-activated mixer is the failure the contract rules out, returned
here as `none`. -/
def Mixer.frame (m : Mixer) : Option Mixer :=
  if m.enabled then some { m with framesServiced := m.framesServiced + 1 } else none

end agb

/-- `Sound` (src/audio.rs line 66): resource newtype wrapping the
activated legacy-chip controller. -/
structure Sound where
  inner : agb.Sound
deriving DecidableEq, Repr

/-- `Noise` (src/audio.rs line 71): resource newtype wrapping the noise
generator handle. -/
structure Noise where
  inner : agb.NoiseGen
deriving DecidableEq, Repr

/-- `Channel<const N: usize>` (src/audio.rs lines 74-78): resource
wrapper for the `N`th pulse channel, holding handles to both hardware
channels regardless of `N`. -/
structure Channel (N : Nat) where
  c1 : agb.Channel1
  c2 : agb.Channel2
deriving DecidableEq, Repr

/-- `Deref for Channel<1>` (src/audio.rs lines 80-86): forwards to the
`c1` field. -/
def Channel.deref1 (c : Channel 1) : agb.Channel1 :=
  c.c1

/-- `DerefMut for Channel<1>` (src/audio.rs lines 88-92): a mutation of
the dereference target acts on the `c1` field. -/
def Channel.derefMut1 (f : agb.Channel1 → agb.Channel1) (c : Channel 1) : Channel 1 :=
  { c with c1 := f c.c1 }

/-- `Deref for Channel<2>` (src/audio.rs lines 94-100): forwards to the
`c2` field. -/
def Channel.deref2 (c : Channel 2) : agb.Channel2 :=
  c.c2

/-- `DerefMut for Channel<2>` (src/audio.rs lines 102-106). -/
def Channel.derefMut2 (f : agb.Channel2 → agb.Channel2) (c : Channel 2) : Channel 2 :=
  { c with c2 := f c.c2 }

/-- `Deref`/`DerefMut` on `Sound` (derived, src/audio.rs line 65):
forwards to the wrapped handle. -/
def Sound.deref (s : Sound) : agb.Sound :=
  s.inner

/-- `Deref`/`DerefMut` on `Noise` (derived, src/audio.rs line 70). -/
def Noise.deref (n : Noise) : agb.NoiseGen :=
  n.inner

/-- `Channel::<1>::from_sound` (src/audio.rs lines 108-115). -/
def Channel.from_sound1 (sound : agb.Sound) : Channel 1 :=
  { c1 := sound.channel1, c2 := sound.channel2 }

/-- `Channel::<2>::from_sound` (src/audio.rs lines 117-124). -/
def Channel.from_sound2 (sound : agb.Sound) : Channel 2 :=
  { c1 := sound.channel1, c2 := sound.channel2 }

/-- The engine's resource registry, one `Option` slot per singleton
resource type the adapter touches (Bevy stores at most one resource per
type key).  `rawSound` and `rawMixerController` are the non-send raw
controller singletons deposited by the hardware startup plugin;
`soundRes` is the `Sound` wrapper resource type declared in
src/audio.rs. -/
structure World where
  rawSound : Option agb.Sound
  rawMixerController : Option agb.MixerController
  channel1 : Option (Channel 1)
  channel2 : Option (Channel 2)
  noiseRes : Option Noise
  soundRes : Option Sound
  mixer : Option agb.Mixer
deriving DecidableEq, Repr

/-- `AgbSoundPlugin` (src/audio.rs lines 7-14). -/
structure AgbSoundPlugin where
  enable_dmg : Bool
  mixer_frequency : Option agb.Frequency
deriving DecidableEq, Repr

/-- The closure registered into `PostUpdate` by `AgbSoundPlugin::build`
(src/audio.rs lines 20-24): if a `Mixer` resource is present, call
`Mixer::frame` on it; otherwise do nothing.  `none` propagates a failed
servicing call (servicing a not-yet-activated mixer). -/
def mixerFrameSystem (w : World) : Option World :=
  match w.mixer with
  | some mixer =>
      match mixer.frame with
      | some mixer => some { w with mixer := some mixer }
      | none => none
  | none => some w

/-- The schedule state built up by plugin `build` phases: the registry
plus the list of systems registered into the `PostUpdate` stage. -/
structure App where
  world : World
  postUpdate : List (World → Option World)

/-- `AgbSoundPlugin::build` (src/audio.rs lines 17-26): registers
exactly one system into the `PostUpdate` schedule. -/
def AgbSoundPlugin.build (_p : AgbSoundPlugin) (app : App) : App :=
  { app with postUpdate := app.postUpdate ++ [mixerFrameSystem] }

/-- `AgbSoundPlugin::finish` (src/audio.rs lines 28-60).  If
`enable_dmg`, remove the raw `agb::sound::dmg::Sound` singleton; when it
was present, enable it, derive `Channel<1>`, `Channel<2>` and `Noise`
from it and insert them as resources.  If `mixer_frequency` is
`Some(frequency)`, remove the raw `MixerController` singleton; when it
was present, promote it to a process-lifetime allocation (`Box::leak`,
identity on the value), construct the mixer at that frequency, enable
it, and insert it as a non-send resource. -/
def AgbSoundPlugin.finish (p : AgbSoundPlugin) (app : World) : World :=
  let app :=
    if p.enable_dmg then
      match app.rawSound with
      | some sound =>
          let sound := sound.enable
          let channel1 := Channel.from_sound1 sound
          let channel2 := Channel.from_sound2 sound
          let noise : Noise := ⟨sound.noise⟩
          { app with
              rawSound := none
              channel1 := some channel1
              channel2 := some channel2
              noiseRes := some noise }
      | none => app
    else app
  match p.mixer_frequency with
  | some frequency =>
      match app.rawMixerController with
      | some mixer_controller =>
          let mixer := mixer_controller.mixer frequency
          let mixer := mixer.enable
          { app with
              rawMixerController := none
              mixer := some mixer }
      | none => app
  | none => app

/-- `N` scheduled ticks of the `PostUpdate` stage: each tick runs the
registered mixer-servicing system once, aborting if a servicing call
fails. -/
def ticks : Nat → World → Option World
  | 0, w => some w
  | n + 1, w =>
      match mixerFrameSystem w with
      | some w' => ticks n w'
      | none => none

/-! ## Helper lemmas -/

/-- A tick with no mixer resource leaves the registry untouched. -/
lemma mixerFrameSystem_none (w : World) (h : w.mixer = none) :
    mixerFrameSystem w = some w := by
  simp [mixerFrameSystem, h]

/-- A tick with an activated mixer resource advances its playback buffer
exactly once and touches nothing else. -/
lemma mixerFrameSystem_enabled (w : World) (m : agb.Mixer)
    (h1 : w.mixer = some m) (h2 : m.enabled = true) :
    mixerFrameSystem w
      = some { w with mixer := some { m with framesServiced := m.framesServiced + 1 } } := by
  simp [mixerFrameSystem, h1, agb.Mixer.frame, h2]

/-- With no mixer resource, any number of ticks is an error-free no-op. -/
lemma ticks_mixer_none (N : Nat) (w : World) (h : w.mixer = none) :
    ticks N w = some w := by
  induction N with
  | zero => rfl
  | succ n ih =>
      rw [ticks, mixerFrameSystem_none w h]
      exact ih

/-- With an activated mixer resource, `N` ticks succeed and advance the
playback buffer exactly `N` times, leaving every other registry slot
unchanged. -/
lemma ticks_enabled (N : Nat) (w : World) (m : agb.Mixer)
    (h1 : w.mixer = some m) (h2 : m.enabled = true) :
    ticks N w
      = some { w with mixer := some { m with framesServiced := m.framesServiced + N } } := by
  induction N generalizing w m with
  | zero =>
      rw [Nat.add_zero]
      rw [show ({ m with framesServiced := m.framesServiced } : agb.Mixer) = m from rfl]
      rw [← h1]
      rfl
  | succ n ih =>
      have h3 := ih { w with mixer := some { m with framesServiced := m.framesServiced + 1 } }
        { m with framesServiced := m.framesServiced + 1 } rfl h2
      rw [ticks, mixerFrameSystem_enabled w m h1 h2]
      simp only [h3]
      simp only [Option.some.injEq, World.mk.injEq, agb.Mixer.mk.injEq, true_and, and_true]
      omega

/-- If every mixer resource present is activated, every tick succeeds. -/
lemma ticks_isSome (N : Nat) (w : World)
    (h : ∀ m, w.mixer = some m → m.enabled = true) :
    (ticks N w).isSome = true := by
  rcases hm : w.mixer with _ | m
  · rw [ticks_mixer_none N w hm]; rfl
  · rw [ticks_enabled N w m hm (h m hm)]; rfl

/-! ## Concrete fixtures for witnesses and counterexamples -/

/-- A registry with every singleton slot empty. -/
def emptyWorld : World :=
  { rawSound := none, rawMixerController := none, channel1 := none, channel2 := none
    noiseRes := none, soundRes := none, mixer := none }

/-- A concrete raw legacy-chip controller, not yet activated. -/
def sound0 : agb.Sound := { id := 0, enabled := false }

/-- A concrete raw mixer controller. -/
def mc0 : agb.MixerController := { id := 0 }

/-- A registry holding only the raw legacy-chip controller singleton. -/
def worldDmg : World := { emptyWorld with rawSound := some sound0 }

/-- A registry holding only the raw mixer controller singleton. -/
def worldMixerCtl : World := { emptyWorld with rawMixerController := some mc0 }

/-- A concrete activated mixer at 10512 Hz. -/
def mixer0 : agb.Mixer := (mc0.mixer agb.Frequency.Hz10512).enable

/-- A registry holding only an activated mixer resource. -/
def worldMixer : World := { emptyWorld with mixer := some mixer0 }

/-- Characterisation of the mixer slot after the finish phase: it is
either untouched, or holds the freshly constructed, enabled mixer built
from the removed raw controller. -/
lemma finish_mixer_char (p : AgbSoundPlugin) (app : World) :
    (p.finish app).mixer = app.mixer
      ∨ ∃ f mc, p.mixer_frequency = some f ∧ app.rawMixerController = some mc
          ∧ (p.finish app).mixer = some ((mc.mixer f).enable) := by
  cases hed : p.enable_dmg <;> rcases hrs : app.rawSound with _ | s <;>
    rcases hmf : p.mixer_frequency with _ | f <;> rcases hrmc : app.rawMixerController with _ | mc
  all_goals
    first
      | (refine Or.inl ?_
         simp [AgbSoundPlugin.finish, hed, hrs, hmf, hrmc]
         done)
      | (refine Or.inr ⟨f, mc, rfl, rfl, ?_⟩
         simp [AgbSoundPlugin.finish, hed, hrs, hmf, hrmc]
         done)

/-! ## Claims -/

/-- C1: if the finish phase runs with `enable_dmg = true` and the raw
legacy-chip controller singleton present, then afterwards exactly one
`Channel<1>`, one `Channel<2>` and one `Noise` resource exist (each slot
holds the value derived from the activated controller), and the raw
controller singleton no longer exists in the registry. -/
theorem C1_dmg_exclusive_activation (p : AgbSoundPlugin) (app : World) (s : agb.Sound)
    (h1 : p.enable_dmg = true) (h2 : app.rawSound = some s) :
    (p.finish app).channel1 = some (Channel.from_sound1 s.enable)
      ∧ (p.finish app).channel2 = some (Channel.from_sound2 s.enable)
      ∧ (p.finish app).noiseRes = some ⟨s.enable.noise⟩
      ∧ (p.finish app).rawSound = none := by
  rcases hmf : p.mixer_frequency with _ | f <;>
    rcases hrmc : app.rawMixerController with _ | mc <;>
      simp [AgbSoundPlugin.finish, h1, h2, hmf, hrmc]

/-- C1 witness: concrete run with `enable_dmg = true` on a registry
holding the raw controller. -/
theorem C1_dmg_exclusive_activation_witness :
    (⟨true, none⟩ : AgbSoundPlugin).enable_dmg = true
      ∧ worldDmg.rawSound = some sound0
      ∧ ((AgbSoundPlugin.finish ⟨true, none⟩ worldDmg).channel1
            = some (Channel.from_sound1 sound0.enable)
        ∧ (AgbSoundPlugin.finish ⟨true, none⟩ worldDmg).channel2
            = some (Channel.from_sound2 sound0.enable)
        ∧ (AgbSoundPlugin.finish ⟨true, none⟩ worldDmg).noiseRes = some ⟨sound0.enable.noise⟩
        ∧ (AgbSoundPlugin.finish ⟨true, none⟩ worldDmg).rawSound = none) :=
  ⟨rfl, rfl, C1_dmg_exclusive_activation ⟨true, none⟩ worldDmg sound0 rfl rfl⟩

/-- C2: if the finish phase runs with `mixer_frequency = Some f` and the
raw mixer controller singleton present, the raw controller is removed,
the mixer is constructed at frequency `f` and its activation entry point
is called, and the resulting mixer resource is already activated, so
servicing it on the next tick does not fail. -/
theorem C2_mixer_lifecycle (p : AgbSoundPlugin) (app : World)
    (f : agb.Frequency) (mc : agb.MixerController)
    (h1 : p.mixer_frequency = some f) (h2 : app.rawMixerController = some mc) :
    (p.finish app).rawMixerController = none
      ∧ (p.finish app).mixer = some ((mc.mixer f).enable)
      ∧ ((mc.mixer f).enable).frequency = f
      ∧ ((mc.mixer f).enable).enabled = true
      ∧ (mixerFrameSystem (p.finish app)).isSome = true := by
  have hmix : (p.finish app).mixer = some ((mc.mixer f).enable) := by
    cases hed : p.enable_dmg <;> rcases hrs : app.rawSound with _ | s <;>
      simp [AgbSoundPlugin.finish, hed, hrs, h1, h2]
  refine ⟨?_, hmix, rfl, rfl, ?_⟩
  · cases hed : p.enable_dmg <;> rcases hrs : app.rawSound with _ | s <;>
      simp [AgbSoundPlugin.finish, hed, hrs, h1, h2]
  · rw [mixerFrameSystem_enabled _ _ hmix rfl]
    rfl

/-- C2 witness: concrete run with `mixer_frequency = Some 10512 Hz` on a
registry holding the raw mixer controller. -/
theorem C2_mixer_lifecycle_witness :
    (⟨false, some agb.Frequency.Hz10512⟩ : AgbSoundPlugin).mixer_frequency
        = some agb.Frequency.Hz10512
      ∧ worldMixerCtl.rawMixerController = some mc0
      ∧ ((AgbSoundPlugin.finish ⟨false, some agb.Frequency.Hz10512⟩ worldMixerCtl).rawMixerController
            = none
        ∧ (AgbSoundPlugin.finish ⟨false, some agb.Frequency.Hz10512⟩ worldMixerCtl).mixer
            = some ((mc0.mixer agb.Frequency.Hz10512).enable)
        ∧ ((mc0.mixer agb.Frequency.Hz10512).enable).frequency = agb.Frequency.Hz10512
        ∧ ((mc0.mixer agb.Frequency.Hz10512).enable).enabled = true
        ∧ (mixerFrameSystem
            (AgbSoundPlugin.finish ⟨false, some agb.Frequency.Hz10512⟩ worldMixerCtl)).isSome
              = true) :=
  ⟨rfl, rfl,
    C2_mixer_lifecycle ⟨false, some agb.Frequency.Hz10512⟩ worldMixerCtl
      agb.Frequency.Hz10512 mc0 rfl rfl⟩

/-- C3: the build phase registers exactly one system into the
post-update schedule; on every invocation that system is a no-op without
error when the mixer resource is absent, and with an (activated) mixer
resource present, `N` scheduled ticks advance the playback buffer
exactly `N` times — once per tick. -/
theorem C3_post_update_service_cadence (p : AgbSoundPlugin) (a : App) (w : World)
    (m : agb.Mixer) (N : Nat) (h1 : w.mixer = some m) (h2 : m.enabled = true) :
    (p.build a).postUpdate = a.postUpdate ++ [mixerFrameSystem]
      ∧ (∀ v : World, v.mixer = none → mixerFrameSystem v = some v)
      ∧ ticks N w
          = some { w with mixer := some { m with framesServiced := m.framesServiced + N } } :=
  ⟨rfl, fun v hv => mixerFrameSystem_none v hv, ticks_enabled N w m h1 h2⟩

/-- C3 witness: a concrete registry with an activated mixer, serviced
over three ticks; plus the no-op case on the empty registry. -/
theorem C3_post_update_service_cadence_witness :
    worldMixer.mixer = some mixer0
      ∧ mixer0.enabled = true
      ∧ (AgbSoundPlugin.build ⟨false, none⟩ ⟨emptyWorld, []⟩).postUpdate
          = [] ++ [mixerFrameSystem]
      ∧ mixerFrameSystem emptyWorld = some emptyWorld
      ∧ ticks 3 worldMixer
          = some { worldMixer with
                     mixer := some { mixer0 with
                                       framesServiced := mixer0.framesServiced + 3 } } := by
  refine ⟨rfl, rfl, ?_, ?_, ?_⟩
  · exact (C3_post_update_service_cadence ⟨false, none⟩ ⟨emptyWorld, []⟩ worldMixer
      mixer0 3 rfl rfl).1
  · exact (C3_post_update_service_cadence ⟨false, none⟩ ⟨emptyWorld, []⟩ worldMixer
      mixer0 3 rfl rfl).2.1 emptyWorld rfl
  · exact (C3_post_update_service_cadence ⟨false, none⟩ ⟨emptyWorld, []⟩ worldMixer
      mixer0 3 rfl rfl).2.2

/-- C4: for every configuration, when a required raw controller
singleton is absent the finish phase completes (it is a total function),
the corresponding feature is skipped, and no corresponding resource is
inserted. -/
theorem C4_missing_controller_skipped (p : AgbSoundPlugin) (app : World) :
    (app.rawSound = none →
        (p.finish app).channel1 = app.channel1
          ∧ (p.finish app).channel2 = app.channel2
          ∧ (p.finish app).noiseRes = app.noiseRes
          ∧ (p.finish app).rawSound = none)
      ∧ (app.rawMixerController = none →
          (p.finish app).mixer = app.mixer
            ∧ (p.finish app).rawMixerController = none) := by
  constructor
  · intro h
    cases hed : p.enable_dmg <;> rcases hmf : p.mixer_frequency with _ | f <;>
      rcases hrmc : app.rawMixerController with _ | mc <;>
        simp [AgbSoundPlugin.finish, hed, h, hmf, hrmc]
  · intro h
    cases hed : p.enable_dmg <;> rcases hmf : p.mixer_frequency with _ | f <;>
      rcases hrs : app.rawSound with _ | s <;>
        simp [AgbSoundPlugin.finish, hed, h, hmf, hrs]

/-- C4 witness: both features enabled on an empty registry — both are
skipped and nothing is inserted. -/
theorem C4_missing_controller_skipped_witness :
    emptyWorld.rawSound = none
      ∧ emptyWorld.rawMixerController = none
      ∧ ((AgbSoundPlugin.finish ⟨true, some agb.Frequency.Hz10512⟩ emptyWorld).channel1
            = emptyWorld.channel1
        ∧ (AgbSoundPlugin.finish ⟨true, some agb.Frequency.Hz10512⟩ emptyWorld).channel2
            = emptyWorld.channel2
        ∧ (AgbSoundPlugin.finish ⟨true, some agb.Frequency.Hz10512⟩ emptyWorld).noiseRes
            = emptyWorld.noiseRes
        ∧ (AgbSoundPlugin.finish ⟨true, some agb.Frequency.Hz10512⟩ emptyWorld).rawSound = none)
      ∧ ((AgbSoundPlugin.finish ⟨true, some agb.Frequency.Hz10512⟩ emptyWorld).mixer
            = emptyWorld.mixer
        ∧ (AgbSoundPlugin.finish ⟨true, some agb.Frequency.Hz10512⟩ emptyWorld).rawMixerController
            = none) :=
  ⟨rfl, rfl,
    (C4_missing_controller_skipped ⟨true, some agb.Frequency.Hz10512⟩ emptyWorld).1 rfl,
    (C4_missing_controller_skipped ⟨true, some agb.Frequency.Hz10512⟩ emptyWorld).2 rfl⟩

/-- C5 counterexample: with `enable_dmg = true` and the raw controller
present, the finish phase derives the `Channel` and `Noise` resources,
yet no `Sound` wrapper resource exists afterwards — contrary to the
claim that a `SoundResource` wrapping the activated controller is
created at the finish phase and exposed to the engine as a resource. -/
theorem C5_no_sound_resource_counterexample :
    worldDmg.rawSound = some sound0
      ∧ (AgbSoundPlugin.finish ⟨true, none⟩ worldDmg).channel1.isSome = true
      ∧ (AgbSoundPlugin.finish ⟨true, none⟩ worldDmg).channel2.isSome = true
      ∧ (AgbSoundPlugin.finish ⟨true, none⟩ worldDmg).noiseRes.isSome = true
      ∧ ¬((AgbSoundPlugin.finish ⟨true, none⟩ worldDmg).soundRes.isSome = true) := by
  decide

/-- C5 (amended): with `enable_dmg = true` and the raw controller
present, the finish phase removes the raw legacy-chip controller from
the registry, activates it, and consumes it directly while deriving the
`Channel` and `Noise` resources; the `Sound` wrapper type exists in the
code but no `Sound` resource is ever created or inserted — that registry
slot is left exactly as it was. -/
theorem C5_raw_controller_consumed (p : AgbSoundPlugin) (app : World) (s : agb.Sound)
    (h1 : p.enable_dmg = true) (h2 : app.rawSound = some s) :
    (p.finish app).rawSound = none
      ∧ (p.finish app).soundRes = app.soundRes
      ∧ (p.finish app).channel1 = some (Channel.from_sound1 s.enable)
      ∧ (p.finish app).channel2 = some (Channel.from_sound2 s.enable)
      ∧ (p.finish app).noiseRes = some ⟨s.enable.noise⟩ := by
  rcases hmf : p.mixer_frequency with _ | f <;>
    rcases hrmc : app.rawMixerController with _ | mc <;>
      simp [AgbSoundPlugin.finish, h1, h2, hmf, hrmc]

/-- C5 witness: concrete run of the amended statement. -/
theorem C5_raw_controller_consumed_witness :
    (⟨true, none⟩ : AgbSoundPlugin).enable_dmg = true
      ∧ worldDmg.rawSound = some sound0
      ∧ ((AgbSoundPlugin.finish ⟨true, none⟩ worldDmg).rawSound = none
        ∧ (AgbSoundPlugin.finish ⟨true, none⟩ worldDmg).soundRes = worldDmg.soundRes
        ∧ (AgbSoundPlugin.finish ⟨true, none⟩ worldDmg).channel1
            = some (Channel.from_sound1 sound0.enable)
        ∧ (AgbSoundPlugin.finish ⟨true, none⟩ worldDmg).channel2
            = some (Channel.from_sound2 sound0.enable)
        ∧ (AgbSoundPlugin.finish ⟨true, none⟩ worldDmg).noiseRes = some ⟨sound0.enable.noise⟩) :=
  ⟨rfl, rfl, C5_raw_controller_consumed ⟨true, none⟩ worldDmg sound0 rfl rfl⟩

/-- C6: running the finish phase a second time on the same engine state
is a silent no-op — the registry after two finish-phase runs equals the
registry after one, because the raw controllers are removed from the
registry on first use. -/
theorem C6_finish_idempotent (p : AgbSoundPlugin) (app : World) :
    p.finish (p.finish app) = p.finish app := by
  obtain ⟨ed, mf⟩ := p
  obtain ⟨rs, rmc, c1, c2, nz, sr, mx⟩ := app
  cases ed <;> rcases rs with _ | s <;> rcases mf with _ | f <;> rcases rmc with _ | mc <;> rfl

/-- C7: in an execution that starts with no mixer resource, every mixer
resource the finish phase makes available is already activated, the
servicing system does not touch a registry without a mixer resource, and
consequently servicing is never invoked on a mixer before its activation
— any number of post-finish ticks succeeds. -/
theorem C7_activation_before_service (p : AgbSoundPlugin) (app : World)
    (h : app.mixer = none) :
    (∀ m, (p.finish app).mixer = some m → m.enabled = true)
      ∧ mixerFrameSystem app = some app
      ∧ ∀ N, (ticks N (p.finish app)).isSome = true := by
  have hok : ∀ m, (p.finish app).mixer = some m → m.enabled = true := by
    intro m hm
    rcases finish_mixer_char p app with hc | ⟨f, mc, _, _, hc⟩
    · rw [hc, h] at hm
      cases hm
    · rw [hc] at hm
      obtain rfl := Option.some.inj hm
      rfl
  exact ⟨hok, mixerFrameSystem_none app h, fun N => ticks_isSome N _ hok⟩

/-- C7 witness: concrete run — finish with the mixer feature enabled on
a registry holding the raw mixer controller and no mixer resource, then
two ticks, which succeed. -/
theorem C7_activation_before_service_witness :
    worldMixerCtl.mixer = none
      ∧ mixerFrameSystem worldMixerCtl = some worldMixerCtl
      ∧ (ticks 2 (AgbSoundPlugin.finish ⟨false, some agb.Frequency.Hz10512⟩
          worldMixerCtl)).isSome = true :=
  ⟨rfl,
    (C7_activation_before_service ⟨false, some agb.Frequency.Hz10512⟩ worldMixerCtl rfl).2.1,
    (C7_activation_before_service ⟨false, some agb.Frequency.Hz10512⟩ worldMixerCtl rfl).2.2 2⟩

/-- C8: with `enable_dmg = false` and `mixer_frequency = None`, the
finish phase leaves the resource registry completely unchanged — no
legacy-chip or mixer resources exist afterwards (none existed before),
no raw controller singleton is removed — and the per-frame sync system
runs without error on every tick. -/
theorem C8_disabled_is_no_op (p : AgbSoundPlugin) (app : World) (N : Nat)
    (h1 : p.enable_dmg = false) (h2 : p.mixer_frequency = none)
    (h3 : app.channel1 = none) (h4 : app.channel2 = none)
    (h5 : app.noiseRes = none) (h6 : app.mixer = none) :
    p.finish app = app
      ∧ (p.finish app).channel1 = none
      ∧ (p.finish app).channel2 = none
      ∧ (p.finish app).noiseRes = none
      ∧ (p.finish app).mixer = none
      ∧ (p.finish app).rawSound = app.rawSound
      ∧ (p.finish app).rawMixerController = app.rawMixerController
      ∧ ticks N (p.finish app) = some (p.finish app) := by
  have hfin : p.finish app = app := by
    simp [AgbSoundPlugin.finish, h1, h2]
  rw [hfin]
  exact ⟨rfl, h3, h4, h5, h6, rfl, rfl, ticks_mixer_none N app h6⟩

/-- C8 witness: the fully disabled plugin on a registry holding both raw
controllers and nothing else; three ticks succeed unchanged. -/
theorem C8_disabled_is_no_op_witness :
    (⟨false, none⟩ : AgbSoundPlugin).enable_dmg = false
      ∧ (⟨false, none⟩ : AgbSoundPlugin).mixer_frequency = none
      ∧ ((AgbSoundPlugin.finish ⟨false, none⟩ worldDmg) = worldDmg
        ∧ (AgbSoundPlugin.finish ⟨false, none⟩ worldDmg).channel1 = none
        ∧ (AgbSoundPlugin.finish ⟨false, none⟩ worldDmg).channel2 = none
        ∧ (AgbSoundPlugin.finish ⟨false, none⟩ worldDmg).noiseRes = none
        ∧ (AgbSoundPlugin.finish ⟨false, none⟩ worldDmg).mixer = none
        ∧ (AgbSoundPlugin.finish ⟨false, none⟩ worldDmg).rawSound = worldDmg.rawSound
        ∧ (AgbSoundPlugin.finish ⟨false, none⟩ worldDmg).rawMixerController
            = worldDmg.rawMixerController
        ∧ ticks 3 (AgbSoundPlugin.finish ⟨false, none⟩ worldDmg)
            = some (AgbSoundPlugin.finish ⟨false, none⟩ worldDmg)) := by
  refine ⟨rfl, rfl, ?_⟩
  exact C8_disabled_is_no_op ⟨false, none⟩ worldDmg 3 rfl rfl rfl rfl rfl rfl

/-- C9: every wrapper dereference forwards transparently to the wrapped
raw handle — `Channel<1>` to its `c1` field, `Channel<2>` to its `c2`
field, `Noise` and `Sound` to their inner handles — so invoking any
operation through the wrapper has effects identical to invoking it on
the raw handle, mutation through the wrapper acts only on the forwarded
field, and the wrapper adds no state or transformation. -/
theorem C9_wrapper_transparency :
    (∀ c : Channel 1, Channel.deref1 c = c.c1)
      ∧ (∀ c : Channel 2, Channel.deref2 c = c.c2)
      ∧ (∀ n : Noise, Noise.deref n = n.inner)
      ∧ (∀ s : Sound, Sound.deref s = s.inner)
      ∧ (∀ (c : Channel 1) (f : agb.Channel1 → agb.Channel1),
          (Channel.derefMut1 f c).c1 = f c.c1 ∧ (Channel.derefMut1 f c).c2 = c.c2)
      ∧ (∀ (c : Channel 2) (f : agb.Channel2 → agb.Channel2),
          (Channel.derefMut2 f c).c2 = f c.c2 ∧ (Channel.derefMut2 f c).c1 = c.c1)
      ∧ (∀ s : agb.Sound, Channel.deref1 (Channel.from_sound1 s) = s.channel1
          ∧ Channel.deref2 (Channel.from_sound2 s) = s.channel2)
      ∧ (∀ (α : Type) (op : agb.Channel1 → α) (c : Channel 1),
          op (Channel.deref1 c) = op c.c1)
      ∧ (∀ (α : Type) (op : agb.Channel2 → α) (c : Channel 2),
          op (Channel.deref2 c) = op c.c2) :=
  ⟨fun _ => rfl, fun _ => rfl, fun _ => rfl, fun _ => rfl,
    fun _ _ => ⟨rfl, rfl⟩, fun _ _ => ⟨rfl, rfl⟩,
    fun _ => ⟨rfl, rfl⟩, fun _ _ _ => rfl, fun _ _ _ => rfl⟩

/-- C10: for every sound handle, `Channel::<1>::from_sound` and
`Channel::<2>::from_sound` have identical bodies — each builds a value
holding handles to both pulse channels (`c1` from `channel1`, `c2` from
`channel2`) — so each `Channel<N>` resource carries an unused handle to
the other channel, and together the two resources hold two handles to
each pulse channel. -/
theorem C10_from_sound_identical_bodies (s : agb.Sound) :
    Channel.from_sound1 s = ⟨s.channel1, s.channel2⟩
      ∧ Channel.from_sound2 s = ⟨s.channel1, s.channel2⟩
      ∧ (Channel.from_sound1 s).c1 = (Channel.from_sound2 s).c1
      ∧ (Channel.from_sound1 s).c2 = (Channel.from_sound2 s).c2
      ∧ (Channel.from_sound1 s).c2 = s.channel2
      ∧ (Channel.from_sound2 s).c1 = s.channel1 :=
  ⟨rfl, rfl, rfl, rfl, rfl, rfl⟩
